import Mathlib

/-!
Shallow embedding of `src/functions.py`: a GeoJSON MRT-station extractor
(`load_mrt_data_from_geojson`), a nearest-station locator and map builder
(`get_interactive_map_and_mrt_geojson`), and a DMS-to-decimal-degrees
converter (`dms_to_dd`).

Modelling conventions:
- Python floats are modelled as exact rationals (ℚ).
- Parsed JSON documents are modelled by the inductive type `JValue`;
  Python's `None` and JSON `null` are both `JValue.null`.
- Python exceptions are modelled with `Except PyErr`; an uncaught
  exception is an `Except.error` result.
- The third-party `haversine` library function is not part of this
  repository; the locator is parametrised by the distance function
  `d : Coord → Coord → ℚ` it calls.
-/

/-- A coordinate pair `(latitude, longitude)`, modelling a Python
2-tuple of floats. -/
abbrev Coord := ℚ × ℚ

/-- Python exception classes that can escape the embedded code. -/
inductive PyErr where
  | attributeError
  | typeError
  | indexError
  | keyError
deriving DecidableEq, Repr

/-- A parsed JSON document (the result of `json.load`). -/
inductive JValue where
  | null
  | bool (b : Bool)
  | num (q : ℚ)
  | str (s : String)
  | arr (xs : List JValue)
  | obj (kvs : List (String × JValue))

/-- First-match lookup in a JSON object's key/value list (parsed JSON
objects have unique keys, matching Python `dict` semantics). -/
def jLookup (kvs : List (String × JValue)) (k : String) : Option JValue :=
  match kvs with
  | [] => none
  | kv :: rest => if kv.1 = k then some kv.2 else jLookup rest k

/-- Python `v.get(k, default)`: succeeds on a dict, raises
`AttributeError` on any other value. -/
def pyGetD (v : JValue) (k : String) (default : JValue) : Except PyErr JValue :=
  match v with
  | .obj kvs => .ok ((jLookup kvs k).getD default)
  | _ => .error .attributeError

/-- Python `v.get(k)` (default `None`). -/
def pyGet (v : JValue) (k : String) : Except PyErr JValue :=
  pyGetD v k .null

/-- Python truthiness of a JSON value (`bool(v)`). -/
def jTruthy (v : JValue) : Bool :=
  match v with
  | .null => false
  | .bool b => b
  | .num q => decide (q ≠ 0)
  | .str s => decide (s ≠ "")
  | .arr xs => !xs.isEmpty
  | .obj kvs => !kvs.isEmpty

/-- Python equality between a JSON value and a string literal: true
exactly when the value is that string (a non-string value compares
unequal to a `str`, never raising). -/
def jIsStrEq (v : JValue) (s : String) : Bool :=
  match v with
  | .str t => t = s
  | _ => false

/-- Python `v[i]` for a natural index: list indexing, string indexing
(yielding a one-character string), `KeyError` on a dict whose keys are
strings, `TypeError` on non-subscriptable values. -/
def jIndex (v : JValue) (i : ℕ) : Except PyErr JValue :=
  match v with
  | .arr xs =>
    match xs.get? i with
    | some x => .ok x
    | none => .error .indexError
  | .str s =>
    match s.data.get? i with
    | some c => .ok (.str (String.mk [c]))
    | none => .error .indexError
  | .obj _ => .error .keyError
  | _ => .error .typeError

/-- Python iteration `for x in v`: lists yield elements, strings yield
one-character strings, dicts yield their keys; other values raise
`TypeError`. -/
def jIter (v : JValue) : Except PyErr (List JValue) :=
  match v with
  | .arr xs => .ok xs
  | .str s => .ok (s.data.map (fun c => .str (String.mk [c])))
  | .obj kvs => .ok (kvs.map (fun kv => .str kv.1))
  | _ => .error .typeError

/-- Does `pat` occur at the head of `cs`? -/
def startsWithL (pat cs : List Char) : Bool :=
  match pat, cs with
  | [], _ => true
  | _ :: _, [] => false
  | a :: as, b :: bs => a = b && startsWithL as bs

/-- The literal part of the regex before the capture group:
`<th>STATION_NA</th> <td>`. -/
def thPat : List Char := "<th>STATION_NA</th> <td>".data

/-- The literal part of the regex after the capture group: `</td>`. -/
def tdEnd : List Char := "</td>".data

/-- The lazy capture `(.*?)` followed by `</td>`: the shortest run of
non-newline characters ending just before `</td>`; `none` when a newline
or the end of input comes first (regex `.` does not match a newline). -/
def captureUpTo (cs : List Char) : Option (List Char) :=
  match cs with
  | [] => none
  | c :: rest =>
    if startsWithL tdEnd (c :: rest) then some []
    else if c = '\n' then none
    else (captureUpTo rest).map (fun l => c :: l)

/-- `re.search` for the pattern `<th>STATION_NA</th> <td>(.*?)</td>`:
try each start position left to right; at a position where the literal
prefix matches, the match succeeds iff the lazy capture closes before a
newline, otherwise the scan moves one character right. Returns the
capture group of the leftmost match. -/
def searchFrom (cs : List Char) : Option (List Char) :=
  match cs with
  | [] => none
  | _ :: rest =>
    if startsWithL thPat cs then
      match captureUpTo (cs.drop thPat.length) with
      | some cap => some cap
      | none => searchFrom rest
    else searchFrom rest

/-- `re.search(r"<th>STATION_NA<\/th> <td>(.*?)<\/td>", s)` returning
the capture group of the first match, if any. -/
def findStationName (s : String) : Option String :=
  (searchFrom s.data).map (fun cs => String.mk cs)

/-- Characters removed by Python `str.strip()` (the ASCII whitespace
set). -/
def pyIsSpace (c : Char) : Bool :=
  c = ' ' || c = '\t' || c = '\n' || c = '\r' || c = '\x0B' || c = '\x0C'

/-- Python `s.strip()`: remove leading and trailing whitespace. -/
def pyStrip (s : String) : String :=
  String.mk (((s.data.dropWhile pyIsSpace).reverse.dropWhile pyIsSpace).reverse)

/-- Boolean substring test, modelling Python `needle in s`. -/
def substrB (needle s : String) : Bool :=
  let rec go (cs : List Char) : Bool :=
    match cs with
    | [] => startsWithL needle.data []
    | _ :: rest => startsWithL needle.data cs || go rest
  go s.data

/-- A Station Record: the extracted name together with the raw
`(latitude, longitude)` JSON values appended by the code. -/
abbrev MRTStation := String × (JValue × JValue)

/-- The body of the per-feature loop in `load_mrt_data_from_geojson`
(lines 23-42): produces `some` station on append, `none` on the
`continue`/no-match paths, and an error where the Python would raise
(those errors are caught by the per-feature `except`). -/
def processFeature (feature : JValue) : Except PyErr (Option MRTStation) :=
  match pyGetD feature "properties" (.obj []) with
  | .error e => .error e
  | .ok properties =>
  match pyGetD feature "geometry" (.obj []) with
  | .error e => .error e
  | .ok geometry =>
  match pyGet geometry "coordinates" with
  | .error e => .error e
  | .ok coordinates =>
  if jTruthy coordinates = false then .ok none
  else
  match pyGet geometry "type" with
  | .error e => .error e
  | .ok gtype =>
  if jIsStrEq gtype "Point" = false then .ok none
  else
  match jIndex coordinates 0 with
  | .error e => .error e
  | .ok lon =>
  match jIndex coordinates 1 with
  | .error e => .error e
  | .ok lat =>
  match pyGetD properties "Description" (.str "") with
  | .error e => .error e
  | .ok descriptionHtml =>
  match descriptionHtml with
  | .str html =>
    match findStationName html with
    | some raw =>
      if substrB "MRT STATION" (pyStrip raw)
      then .ok (some (pyStrip raw, (lat, lon)))
      else .ok none
    | none => .ok none
  | _ => .error .typeError

/-- One loop iteration including the per-feature `try/except`: an
exception is printed and the feature skipped. -/
def acceptFeature (f : JValue) : Option MRTStation :=
  match processFeature f with
  | .ok (some st) => some st
  | _ => none

/-- The outcome of `open` + `json.load` on the input path: the file is
missing (`FileNotFoundError`), its contents fail to decode
(`json.JSONDecodeError`), or it decodes to a JSON value. -/
inductive LoadInput where
  | missing
  | badJson
  | parsed (data : JValue)

/-- `load_mrt_data_from_geojson` (lines 11-54): the outer `try` catches
only `FileNotFoundError` and `json.JSONDecodeError` (both return `[]`);
`data.get('features', [])` and the `for` statement run outside any
per-feature handler, so their exceptions escape as `Except.error`. -/
def load_mrt_data_from_geojson (input : LoadInput) : Except PyErr (List MRTStation) :=
  match input with
  | .missing => .ok []
  | .badJson => .ok []
  | .parsed data =>
    match pyGetD data "features" (.arr []) with
    | .error e => .error e
    | .ok featsVal =>
      match jIter featsVal with
      | .error e => .error e
      | .ok feats =>
        .ok (feats.foldl (fun acc f =>
          match acceptFeature f with
          | some st => acc ++ [st]
          | none => acc) [])

/-- The running state of the nearest-station loop (lines 79-81):
`nearest_station_name = "Unknown"`, `min_distance = float('inf')`
(modelled as `⊤ : WithTop ℚ`), `nearest_station_coords = None`. -/
structure ScanState where
  nearest_station_name : String
  min_distance : WithTop ℚ
  nearest_station_coords : Option Coord
deriving DecidableEq, Repr

/-- One iteration of the loop (lines 83-88): replace the tracked
minimum only on a strictly smaller distance. -/
def scanStep (dc : Coord → ℚ) (s : ScanState) (st : String × Coord) : ScanState :=
  if (dc st.2 : WithTop ℚ) < s.min_distance
  then ⟨st.1, (dc st.2 : WithTop ℚ), some st.2⟩
  else s

/-- The whole loop over the catalog, in catalog order. -/
def scanLoop (dc : Coord → ℚ) (s : ScanState) : List (String × Coord) → ScanState
  | [] => s
  | st :: rest => scanLoop dc (scanStep dc s st) rest

/-- Round a rational to an integer number of hundredths, ties to even,
which is how Python's fixed-point formatting rounds. -/
def round2 (q : ℚ) : ℤ :=
  let x := 100 * q
  let f := ⌊x⌋
  if x - f < 1 / 2 then f
  else if (1 : ℚ) / 2 < x - f then f + 1
  else if f % 2 = 0 then f else f + 1

/-- Zero-pad a hundredths remainder to two digits. -/
def pad2 (m : ℕ) : String :=
  if m < 10 then "0" ++ toString m else toString m

/-- Python `f"{q:.2f}"` for a finite value: two decimal places,
preserving the sign (so a tiny negative value prints `-0.00`). -/
def format2 (q : ℚ) : String :=
  let n := round2 q
  let m := n.natAbs
  let s := toString (m / 100) ++ "." ++ pad2 (m % 100)
  if q < 0 then "-" ++ s else s

/-- Python `f"{x:.2f}"` on the tracked minimum, which can still be
`float('inf')` (printed `inf`). -/
def formatF2 (x : WithTop ℚ) : String :=
  match x with
  | none => "inf"
  | some q => format2 q

/-- A `folium.Icon`: color, icon name and icon library (the library
defaults to `glyphicon`; the station marker passes `fa`). -/
structure MapIcon where
  color : String
  icon : String
  iconLib : String
deriving DecidableEq, Repr

/-- A `folium.Marker` added to the map. -/
structure MapMarker where
  location : Coord
  popup : String
  icon : MapIcon
deriving DecidableEq, Repr

/-- The `folium.Polygon` drawn for three or more input locations
(lines 97-104). -/
structure MapPolygon where
  locations : List Coord
  popup : String
  color : String
  fill : Bool
  fill_color : String
  fill_opacity : ℚ
deriving DecidableEq, Repr

/-- The `folium.Map` artifact: center, zoom, the optional input-area
polygon and the markers in the order they are added. -/
structure FoliumMap where
  location : Coord
  zoom_start : ℕ
  polygon : Option MapPolygon
  markers : List MapMarker
deriving DecidableEq, Repr

/-- The centroid of lines 74-76: per-axis arithmetic mean. -/
def center_point (locations : List Coord) : Coord :=
  ((locations.map Prod.fst).sum / (locations.length : ℚ),
   (locations.map Prod.snd).sum / (locations.length : ℚ))

/-- `get_interactive_map_and_mrt_geojson` (lines 59-131), parametrised
by the external `haversine` distance function `d` (kilometers). Returns
the result string and `none` in place of a map on the two error paths,
otherwise the string and the map artifact. -/
def get_interactive_map_and_mrt_geojson (d : Coord → Coord → ℚ)
    (locations : List Coord) (mrt_exits_list : List (String × Coord)) :
    String × Option FoliumMap :=
  if locations.isEmpty then ("Error: No locations provided.", none)
  else if mrt_exits_list.isEmpty then ("Error: No MRT data provided or loaded.", none)
  else
    let center := center_point locations
    let scan := scanLoop (d center) ⟨"Unknown", ⊤, none⟩ mrt_exits_list
    let result_string := "The nearest MRT station is: " ++ scan.nearest_station_name ++
      " (distance: " ++ formatF2 scan.min_distance ++ " km)"
    let polygon : Option MapPolygon :=
      if 3 ≤ locations.length
      then some ⟨locations, "Input Area", "#3186cc", true, "#3186cc", 1 / 5⟩
      else none
    let markers : List MapMarker :=
      locations.map (fun loc => ⟨loc, "Input Location", ⟨"blue", "info-sign", "glyphicon"⟩⟩)
      ++ [⟨center, "Center Point", ⟨"green", "star", "glyphicon"⟩⟩]
      ++ (match scan.nearest_station_coords with
          | some c => [⟨c, "Nearest MRT: " ++ scan.nearest_station_name, ⟨"red", "train", "fa"⟩⟩]
          | none => [])
    (result_string, some ⟨center, 14, polygon, markers⟩)

/-- `dms_to_dd` (lines 134-144): degrees + minutes/60 + seconds/3600,
negated exactly when the direction code is in `('S', 'W', 's', 'w')`. -/
def dms_to_dd (degrees minutes seconds : ℚ) (direction : Char) : ℚ :=
  let decimal_degrees := degrees + minutes / 60 + seconds / 3600
  if direction = 'S' ∨ direction = 'W' ∨ direction = 's' ∨ direction = 'w'
  then -decimal_degrees
  else decimal_degrees

/-- The inputs on which the extractor's own error handling is complete:
the file is missing, the document fails to decode, or it decodes to a
JSON object whose `features` entry (when present) is an iterable value
(list, string or object). Outside this set an exception escapes the
outer `try`, which catches only `FileNotFoundError` and
`json.JSONDecodeError`. -/
def topLevelOk (input : LoadInput) : Bool :=
  match input with
  | .missing => true
  | .badJson => true
  | .parsed data =>
    match data with
    | .obj kvs =>
      match (jLookup kvs "features").getD (.arr []) with
      | .arr _ => true
      | .str _ => true
      | .obj _ => true
      | _ => false
    | _ => false

/-- A well-formed point feature used as a concrete test input: source
coordinates `[103.8, 1.3]` (longitude first) and an embedded
station-name row. -/
def wfFeature : JValue :=
  .obj [("properties", .obj [("Description",
           .str "<th>STATION_NA</th> <td>X MRT STATION</td>")]),
        ("geometry", .obj [("type", .str "Point"),
           ("coordinates", .arr [.num (103.8 : ℚ), .num (1.3 : ℚ)])])]

theorem scanLoop_nil (dc : Coord → ℚ) (s : ScanState) : scanLoop dc s [] = s := rfl

theorem scanLoop_cons (dc : Coord → ℚ) (s : ScanState) (st : String × Coord)
    (rest : List (String × Coord)) :
    scanLoop dc s (st :: rest) = scanLoop dc (scanStep dc s st) rest := rfl

/-- Characterisation of the nearest-station loop from any starting
state: either no station beats the starting minimum and the state is
unchanged, or the final state holds the first station attaining the
minimum distance (strict improvement over every earlier station that
also beat the starting minimum). -/
theorem scanLoop_spec (dc : Coord → ℚ) (l : List (String × Coord)) :
    ∀ s : ScanState,
    ((∀ st ∈ l, s.min_distance ≤ (dc st.2 : WithTop ℚ)) ∧ scanLoop dc s l = s)
    ∨ (∃ i, ∃ hi : i < l.length,
        scanLoop dc s l =
          ⟨(l.get ⟨i, hi⟩).1, (dc (l.get ⟨i, hi⟩).2 : WithTop ℚ), some (l.get ⟨i, hi⟩).2⟩
        ∧ (dc (l.get ⟨i, hi⟩).2 : WithTop ℚ) < s.min_distance
        ∧ (∀ j, ∀ hj : j < l.length, dc (l.get ⟨i, hi⟩).2 ≤ dc (l.get ⟨j, hj⟩).2)
        ∧ (∀ j, ∀ hj : j < l.length, j < i →
            s.min_distance ≤ (dc (l.get ⟨j, hj⟩).2 : WithTop ℚ) ∨
              dc (l.get ⟨i, hi⟩).2 < dc (l.get ⟨j, hj⟩).2)) := by
  induction l with
  | nil =>
    intro s
    exact Or.inl ⟨by simp, rfl⟩
  | cons st rest ih =>
    intro s
    by_cases h : (dc st.2 : WithTop ℚ) < s.min_distance
    · have hstep : scanStep dc s st = ⟨st.1, (dc st.2 : WithTop ℚ), some st.2⟩ := by
        simp [scanStep, h]
      rcases ih ⟨st.1, (dc st.2 : WithTop ℚ), some st.2⟩ with
        ⟨hall, heq⟩ | ⟨i, hi, heq, hlt, hmin, hfirst⟩
      · refine Or.inr ⟨0, by simp, ?_, h, ?_, ?_⟩
        · rw [scanLoop_cons, hstep, heq]; rfl
        · intro j hj
          cases j with
          | zero => exact le_refl _
          | succ k =>
            have hk : k < rest.length := by simpa using hj
            have := hall (rest.get ⟨k, hk⟩) (List.get_mem rest k hk)
            exact WithTop.coe_le_coe.mp this
        · intro j hj hj0
          exact absurd hj0 (Nat.not_lt_zero j)
      · have hlt' : dc (rest.get ⟨i, hi⟩).2 < dc st.2 := WithTop.coe_lt_coe.mp hlt
        refine Or.inr ⟨i + 1, by simpa using Nat.succ_lt_succ hi, ?_, ?_, ?_, ?_⟩
        · rw [scanLoop_cons, hstep, heq]; rfl
        · exact lt_trans hlt h
        · intro j hj
          cases j with
          | zero => exact le_of_lt hlt'
          | succ k =>
            have hk : k < rest.length := by simpa using hj
            exact hmin k hk
        · intro j hj hji
          cases j with
          | zero => exact Or.inr hlt'
          | succ k =>
            have hk : k < rest.length := by simpa using hj
            have hki : k < i := by omega
            rcases hfirst k hk hki with hle | hlt2
            · exact Or.inr (lt_of_lt_of_le hlt' (WithTop.coe_le_coe.mp hle))
            · exact Or.inr hlt2
    · have hstep : scanStep dc s st = s := by
        simp [scanStep, h]
      rcases ih s with ⟨hall, heq⟩ | ⟨i, hi, heq, hlt, hmin, hfirst⟩
      · refine Or.inl ⟨?_, ?_⟩
        · intro x hx
          rcases List.mem_cons.mp hx with rfl | hx'
          · exact not_lt.mp h
          · exact hall x hx'
        · rw [scanLoop_cons, hstep, heq]
      · refine Or.inr ⟨i + 1, by simpa using Nat.succ_lt_succ hi, ?_, hlt, ?_, ?_⟩
        · rw [scanLoop_cons, hstep, heq]; rfl
        · intro j hj
          cases j with
          | zero =>
            have : (dc (rest.get ⟨i, hi⟩).2 : WithTop ℚ) < (dc st.2 : WithTop ℚ) :=
              lt_of_lt_of_le hlt (not_lt.mp h)
            exact le_of_lt (WithTop.coe_lt_coe.mp this)
          | succ k =>
            have hk : k < rest.length := by simpa using hj
            exact hmin k hk
        · intro j hj hji
          cases j with
          | zero => exact Or.inl (not_lt.mp h)
          | succ k =>
            have hk : k < rest.length := by simpa using hj
            have hki : k < i := by omega
            exact hfirst k hk hki

theorem formatF2_coe (q : ℚ) : formatF2 (q : WithTop ℚ) = format2 q := rfl

/-- The nearest-station loop from its actual starting state
(`min_distance = inf`) on a non-empty catalog: the final state holds the
first station attaining the minimal distance. -/
theorem scanLoop_top (dc : Coord → ℚ) (l : List (String × Coord)) (hl : l ≠ []) :
    ∃ i, ∃ hi : i < l.length,
      scanLoop dc ⟨"Unknown", ⊤, none⟩ l =
        ⟨(l.get ⟨i, hi⟩).1, (dc (l.get ⟨i, hi⟩).2 : WithTop ℚ), some (l.get ⟨i, hi⟩).2⟩
      ∧ (∀ j, ∀ hj : j < l.length, dc (l.get ⟨i, hi⟩).2 ≤ dc (l.get ⟨j, hj⟩).2)
      ∧ (∀ j, ∀ hj : j < l.length, j < i →
          dc (l.get ⟨i, hi⟩).2 < dc (l.get ⟨j, hj⟩).2) := by
  rcases scanLoop_spec dc l ⟨"Unknown", ⊤, none⟩ with
    ⟨hall, _⟩ | ⟨i, hi, heq, _, hmin, hfirst⟩
  · exfalso
    obtain ⟨st, hst⟩ := List.exists_mem_of_ne_nil l hl
    have h := hall st hst
    exact absurd (top_le_iff.mp h) WithTop.coe_ne_top
  · refine ⟨i, hi, heq, hmin, ?_⟩
    intro j hj hji
    rcases hfirst j hj hji with hle | hlt
    · exact absurd (top_le_iff.mp hle) WithTop.coe_ne_top
    · exact hlt

theorem get_map_fst (d : Coord → Coord → ℚ) (a : Coord) (as : List Coord)
    (b : String × Coord) (bs : List (String × Coord)) :
    (get_interactive_map_and_mrt_geojson d (a :: as) (b :: bs)).1 =
      "The nearest MRT station is: " ++
        (scanLoop (d (center_point (a :: as))) ⟨"Unknown", ⊤, none⟩ (b :: bs)).nearest_station_name ++
      " (distance: " ++
        formatF2 (scanLoop (d (center_point (a :: as))) ⟨"Unknown", ⊤, none⟩ (b :: bs)).min_distance ++
      " km)" := rfl

theorem get_map_snd (d : Coord → Coord → ℚ) (a : Coord) (as : List Coord)
    (b : String × Coord) (bs : List (String × Coord)) :
    (get_interactive_map_and_mrt_geojson d (a :: as) (b :: bs)).2 =
      some ⟨center_point (a :: as), 14,
        (if 3 ≤ (a :: as).length
         then some ⟨a :: as, "Input Area", "#3186cc", true, "#3186cc", 1 / 5⟩
         else none),
        (a :: as).map (fun loc => ⟨loc, "Input Location", ⟨"blue", "info-sign", "glyphicon"⟩⟩)
        ++ [⟨center_point (a :: as), "Center Point", ⟨"green", "star", "glyphicon"⟩⟩]
        ++ (match (scanLoop (d (center_point (a :: as))) ⟨"Unknown", ⊤, none⟩ (b :: bs)).nearest_station_coords with
            | some c => [⟨c, "Nearest MRT: " ++
                (scanLoop (d (center_point (a :: as))) ⟨"Unknown", ⊤, none⟩ (b :: bs)).nearest_station_name,
                ⟨"red", "train", "fa"⟩⟩]
            | none => [])⟩ := rfl

/-- C1: for every non-empty input location sequence and non-empty station
catalog, and any distance function standing for the external haversine
call, the locator returns the station at the first catalog index attaining
the minimal distance from the centroid: its name and distance make up the
summary line and its marker is placed on the map, its distance is a lower
bound for the whole catalog, and every strictly earlier catalog entry is
at strictly greater distance — so when two or more stations attain the
minimal distance, the one appearing earliest in the catalog is returned. -/
theorem C1_locator_first_minimal (d : Coord → Coord → ℚ) (locations : List Coord)
    (catalog : List (String × Coord)) (h1 : locations ≠ []) (h2 : catalog ≠ []) :
    ∃ i, ∃ hi : i < catalog.length,
      (get_interactive_map_and_mrt_geojson d locations catalog).1 =
        "The nearest MRT station is: " ++ (catalog.get ⟨i, hi⟩).1 ++
        " (distance: " ++ format2 (d (center_point locations) (catalog.get ⟨i, hi⟩).2) ++ " km)"
      ∧ (∃ m : FoliumMap,
          (get_interactive_map_and_mrt_geojson d locations catalog).2 = some m ∧
          m.markers.getLast? = some ⟨(catalog.get ⟨i, hi⟩).2,
            "Nearest MRT: " ++ (catalog.get ⟨i, hi⟩).1, ⟨"red", "train", "fa"⟩⟩)
      ∧ (∀ j, ∀ hj : j < catalog.length,
          d (center_point locations) (catalog.get ⟨i, hi⟩).2 ≤
            d (center_point locations) (catalog.get ⟨j, hj⟩).2)
      ∧ (∀ j, ∀ hj : j < catalog.length, j < i →
          d (center_point locations) (catalog.get ⟨i, hi⟩).2 <
            d (center_point locations) (catalog.get ⟨j, hj⟩).2) := by
  obtain ⟨a, as, rfl⟩ := List.exists_cons_of_ne_nil h1
  obtain ⟨b, bs, rfl⟩ := List.exists_cons_of_ne_nil h2
  obtain ⟨i, hi, heq, hmin, hfirst⟩ :=
    scanLoop_top (d (center_point (a :: as))) (b :: bs) (by simp)
  refine ⟨i, hi, ?_, ?_, hmin, hfirst⟩
  · rw [get_map_fst, heq]; rfl
  · refine ⟨_, get_map_snd d a as b bs, ?_⟩
    simp only [heq]
    exact List.getLast?_concat _

/-- C1 witness: on a one-point input and a two-station catalog at equal
distance under a constant distance function, the first station is the
selected one. -/
theorem C1_locator_first_minimal_witness :
    (([((1 : ℚ), (2 : ℚ))] : List Coord) ≠ [] ∧
     ([("A", ((0 : ℚ), (0 : ℚ))), ("B", ((0 : ℚ), (0 : ℚ)))] : List (String × Coord)) ≠ []) ∧
    (∃ i, ∃ hi : i < ([("A", ((0 : ℚ), (0 : ℚ))), ("B", ((0 : ℚ), (0 : ℚ)))] : List (String × Coord)).length,
      (get_interactive_map_and_mrt_geojson (fun _ _ => (5 : ℚ)) [((1 : ℚ), (2 : ℚ))]
          [("A", ((0 : ℚ), (0 : ℚ))), ("B", ((0 : ℚ), (0 : ℚ)))]).1 =
        "The nearest MRT station is: " ++
          (([("A", ((0 : ℚ), (0 : ℚ))), ("B", ((0 : ℚ), (0 : ℚ)))] : List (String × Coord)).get ⟨i, hi⟩).1 ++
        " (distance: " ++
          format2 ((fun (_ _ : Coord) => (5 : ℚ)) (center_point [((1 : ℚ), (2 : ℚ))])
            (([("A", ((0 : ℚ), (0 : ℚ))), ("B", ((0 : ℚ), (0 : ℚ)))] : List (String × Coord)).get ⟨i, hi⟩).2) ++ " km)"
      ∧ (∃ m : FoliumMap,
          (get_interactive_map_and_mrt_geojson (fun _ _ => (5 : ℚ)) [((1 : ℚ), (2 : ℚ))]
              [("A", ((0 : ℚ), (0 : ℚ))), ("B", ((0 : ℚ), (0 : ℚ)))]).2 = some m ∧
          m.markers.getLast? = some ⟨(([("A", ((0 : ℚ), (0 : ℚ))), ("B", ((0 : ℚ), (0 : ℚ)))] : List (String × Coord)).get ⟨i, hi⟩).2,
            "Nearest MRT: " ++ (([("A", ((0 : ℚ), (0 : ℚ))), ("B", ((0 : ℚ), (0 : ℚ)))] : List (String × Coord)).get ⟨i, hi⟩).1,
            ⟨"red", "train", "fa"⟩⟩)
      ∧ (∀ j, ∀ hj : j < ([("A", ((0 : ℚ), (0 : ℚ))), ("B", ((0 : ℚ), (0 : ℚ)))] : List (String × Coord)).length,
          (fun (_ _ : Coord) => (5 : ℚ)) (center_point [((1 : ℚ), (2 : ℚ))])
            (([("A", ((0 : ℚ), (0 : ℚ))), ("B", ((0 : ℚ), (0 : ℚ)))] : List (String × Coord)).get ⟨i, hi⟩).2 ≤
          (fun (_ _ : Coord) => (5 : ℚ)) (center_point [((1 : ℚ), (2 : ℚ))])
            (([("A", ((0 : ℚ), (0 : ℚ))), ("B", ((0 : ℚ), (0 : ℚ)))] : List (String × Coord)).get ⟨j, hj⟩).2)
      ∧ (∀ j, ∀ hj : j < ([("A", ((0 : ℚ), (0 : ℚ))), ("B", ((0 : ℚ), (0 : ℚ)))] : List (String × Coord)).length, j < i →
          (fun (_ _ : Coord) => (5 : ℚ)) (center_point [((1 : ℚ), (2 : ℚ))])
            (([("A", ((0 : ℚ), (0 : ℚ))), ("B", ((0 : ℚ), (0 : ℚ)))] : List (String × Coord)).get ⟨i, hi⟩).2 <
          (fun (_ _ : Coord) => (5 : ℚ)) (center_point [((1 : ℚ), (2 : ℚ))])
            (([("A", ((0 : ℚ), (0 : ℚ))), ("B", ((0 : ℚ), (0 : ℚ)))] : List (String × Coord)).get ⟨j, hj⟩).2)) :=
  ⟨⟨by decide, by decide⟩,
   C1_locator_first_minimal (fun _ _ => (5 : ℚ)) [((1 : ℚ), (2 : ℚ))]
     [("A", ((0 : ℚ), (0 : ℚ))), ("B", ((0 : ℚ), (0 : ℚ)))] (by decide) (by decide)⟩

/-- C2: an empty input location sequence yields the no-locations error
string and no map for any catalog; a non-empty input sequence with an
empty catalog yields the no-MRT-data error string and no map; the two
error strings are distinct. -/
theorem C2_error_results (d : Coord → Coord → ℚ) (catalog : List (String × Coord))
    (locations : List Coord) (h : locations ≠ []) :
    get_interactive_map_and_mrt_geojson d [] catalog =
      ("Error: No locations provided.", none)
    ∧ get_interactive_map_and_mrt_geojson d locations [] =
      ("Error: No MRT data provided or loaded.", none)
    ∧ "Error: No locations provided." ≠ "Error: No MRT data provided or loaded." := by
  refine ⟨rfl, ?_, by decide⟩
  obtain ⟨a, as, rfl⟩ := List.exists_cons_of_ne_nil h
  rfl

/-- C2 witness: the guards evaluated at a concrete catalog and a
concrete one-element input sequence. -/
theorem C2_error_results_witness :
    (([((3 : ℚ), (4 : ℚ))] : List Coord) ≠ []) ∧
    (get_interactive_map_and_mrt_geojson (fun _ _ => (0 : ℚ)) []
        [("A", ((0 : ℚ), (0 : ℚ)))] = ("Error: No locations provided.", none)
     ∧ get_interactive_map_and_mrt_geojson (fun _ _ => (0 : ℚ)) [((3 : ℚ), (4 : ℚ))] [] =
        ("Error: No MRT data provided or loaded.", none)
     ∧ "Error: No locations provided." ≠ "Error: No MRT data provided or loaded.") :=
  ⟨by decide,
   C2_error_results (fun _ _ => (0 : ℚ)) [("A", ((0 : ℚ), (0 : ℚ)))]
     [((3 : ℚ), (4 : ℚ))] (by decide)⟩

/-- C3: on every successful call the map is centered at the per-axis
arithmetic mean of the input locations (sum of latitudes over the count,
sum of longitudes over the count), and for the inputs
`[(1.0, 103.0), (1.2, 103.2)]` that centroid is exactly `(1.1, 103.1)`. -/
theorem C3_centroid_mean (d : Coord → Coord → ℚ) (locations : List Coord)
    (catalog : List (String × Coord)) (h1 : locations ≠ []) (h2 : catalog ≠ []) :
    (∃ m : FoliumMap,
       (get_interactive_map_and_mrt_geojson d locations catalog).2 = some m ∧
       m.location = ((locations.map Prod.fst).sum / (locations.length : ℚ),
                     (locations.map Prod.snd).sum / (locations.length : ℚ)))
    ∧ center_point [((1 : ℚ), (103 : ℚ)), ((1.2 : ℚ), (103.2 : ℚ))] = ((1.1 : ℚ), (103.1 : ℚ)) := by
  constructor
  · obtain ⟨a, as, rfl⟩ := List.exists_cons_of_ne_nil h1
    obtain ⟨b, bs, rfl⟩ := List.exists_cons_of_ne_nil h2
    exact ⟨_, get_map_snd d a as b bs, rfl⟩
  · simp only [center_point, List.map_cons, List.map_nil, List.sum_cons, List.sum_nil,
      List.length_cons, List.length_nil, Prod.mk.injEq]
    norm_num

/-- C3 witness: the centroid of the map returned for the spec's example
inputs is the claimed mean. -/
theorem C3_centroid_mean_witness :
    (([((1 : ℚ), (103 : ℚ)), ((1.2 : ℚ), (103.2 : ℚ))] : List Coord) ≠ [] ∧
     ([("A", ((0 : ℚ), (0 : ℚ)))] : List (String × Coord)) ≠ []) ∧
    ((∃ m : FoliumMap,
       (get_interactive_map_and_mrt_geojson (fun _ _ => (0 : ℚ))
          [((1 : ℚ), (103 : ℚ)), ((1.2 : ℚ), (103.2 : ℚ))] [("A", ((0 : ℚ), (0 : ℚ)))]).2 = some m ∧
       m.location = ((([((1 : ℚ), (103 : ℚ)), ((1.2 : ℚ), (103.2 : ℚ))] : List Coord).map Prod.fst).sum /
                       (([((1 : ℚ), (103 : ℚ)), ((1.2 : ℚ), (103.2 : ℚ))] : List Coord).length : ℚ),
                     (([((1 : ℚ), (103 : ℚ)), ((1.2 : ℚ), (103.2 : ℚ))] : List Coord).map Prod.snd).sum /
                       (([((1 : ℚ), (103 : ℚ)), ((1.2 : ℚ), (103.2 : ℚ))] : List Coord).length : ℚ)))
     ∧ center_point [((1 : ℚ), (103 : ℚ)), ((1.2 : ℚ), (103.2 : ℚ))] = ((1.1 : ℚ), (103.1 : ℚ))) :=
  ⟨⟨by decide, by decide⟩,
   C3_centroid_mean (fun _ _ => (0 : ℚ)) [((1 : ℚ), (103 : ℚ)), ((1.2 : ℚ), (103.2 : ℚ))]
     [("A", ((0 : ℚ), (0 : ℚ)))] (by decide) (by decide)⟩

/-- C10: when both the input location sequence and the catalog are empty,
the locator returns the empty-locations error result and no map: the
empty-locations guard runs before the empty-catalog guard. -/
theorem C10_empty_precedence (d : Coord → Coord → ℚ) :
    get_interactive_map_and_mrt_geojson d [] [] =
      ("Error: No locations provided.", none) := rfl

theorem format2_zero : format2 0 = "0.00" := by
  norm_num [format2, round2, pad2]
  decide

/-- C7: the converter returns degrees + minutes/60 + seconds/3600,
negated exactly when the direction code is one of 'S', 's', 'W', 'w',
and left positive for every other code, with no range validation on the
numeric inputs; in particular the spec's three example values hold. -/
theorem C7_dms_to_dd_sign (degrees minutes seconds : ℚ) (c : Char) :
    ((c = 'S' ∨ c = 's' ∨ c = 'W' ∨ c = 'w') →
      dms_to_dd degrees minutes seconds c = -(degrees + minutes / 60 + seconds / 3600))
    ∧ (¬(c = 'S' ∨ c = 's' ∨ c = 'W' ∨ c = 'w') →
      dms_to_dd degrees minutes seconds c = degrees + minutes / 60 + seconds / 3600)
    ∧ dms_to_dd 1 30 0 'N' = 1.5
    ∧ dms_to_dd 1 30 0 'S' = -1.5
    ∧ dms_to_dd 1 30 0 'x' = 1.5 := by
  refine ⟨?_, ?_, ?_, ?_, ?_⟩
  · intro h
    have h' : c = 'S' ∨ c = 'W' ∨ c = 's' ∨ c = 'w' := by tauto
    simp only [dms_to_dd, if_pos h']
  · intro h
    have h' : ¬(c = 'S' ∨ c = 'W' ∨ c = 's' ∨ c = 'w') := by tauto
    simp only [dms_to_dd, if_neg h']
  · norm_num [dms_to_dd]
    decide
  · norm_num [dms_to_dd]
  · norm_num [dms_to_dd]
    decide

/-- C7 witness: the sign rule applied at a recognized lower-case West
code and at an unrecognized code. -/
theorem C7_dms_to_dd_sign_witness :
    dms_to_dd 2 45 30 'w' = -((2 : ℚ) + 45 / 60 + 30 / 3600)
    ∧ dms_to_dd 2 45 30 'Q' = (2 : ℚ) + 45 / 60 + 30 / 3600 :=
  ⟨(C7_dms_to_dd_sign 2 45 30 'w').1 (Or.inr (Or.inr (Or.inr rfl))),
   (C7_dms_to_dd_sign 2 45 30 'Q').2.1 (by decide)⟩

/-- C8: on every successful locator call the map carries the input-area
polygon exactly when there are 3 or more input coordinates, and the
polygon's vertex list is the input location list itself, in input
order. -/
theorem C8_polygon_gating (d : Coord → Coord → ℚ) (locations : List Coord)
    (catalog : List (String × Coord)) (h1 : locations ≠ []) (h2 : catalog ≠ []) :
    ∃ m : FoliumMap,
      (get_interactive_map_and_mrt_geojson d locations catalog).2 = some m ∧
      (m.polygon.isSome = true ↔ 3 ≤ locations.length) ∧
      (∀ p : MapPolygon, m.polygon = some p → p.locations = locations) := by
  obtain ⟨a, as, rfl⟩ := List.exists_cons_of_ne_nil h1
  obtain ⟨b, bs, rfl⟩ := List.exists_cons_of_ne_nil h2
  refine ⟨_, get_map_snd d a as b bs, ?_, ?_⟩
  · by_cases hlen : 3 ≤ (a :: as).length <;> simp [hlen]
  · intro p hp
    by_cases hlen : 3 ≤ (a :: as).length
    · simp only [if_pos hlen, Option.some.injEq] at hp
      rw [← hp]
    · simp only [if_neg hlen] at hp
      exact absurd hp (by simp)

/-- C8 witness: with three input locations the polygon is present and
passes through them in order (so with two it would be absent, by the
same equivalence). -/
theorem C8_polygon_gating_witness :
    (([((0 : ℚ), (0 : ℚ)), ((1 : ℚ), (0 : ℚ)), ((0 : ℚ), (1 : ℚ))] : List Coord) ≠ [] ∧
     ([("A", ((0 : ℚ), (0 : ℚ)))] : List (String × Coord)) ≠ []) ∧
    (∃ m : FoliumMap,
      (get_interactive_map_and_mrt_geojson (fun _ _ => (0 : ℚ))
          [((0 : ℚ), (0 : ℚ)), ((1 : ℚ), (0 : ℚ)), ((0 : ℚ), (1 : ℚ))]
          [("A", ((0 : ℚ), (0 : ℚ)))]).2 = some m ∧
      (m.polygon.isSome = true ↔
        3 ≤ ([((0 : ℚ), (0 : ℚ)), ((1 : ℚ), (0 : ℚ)), ((0 : ℚ), (1 : ℚ))] : List Coord).length) ∧
      (∀ p : MapPolygon, m.polygon = some p →
        p.locations = [((0 : ℚ), (0 : ℚ)), ((1 : ℚ), (0 : ℚ)), ((0 : ℚ), (1 : ℚ))])) :=
  ⟨⟨by decide, by decide⟩,
   C8_polygon_gating (fun _ _ => (0 : ℚ))
     [((0 : ℚ), (0 : ℚ)), ((1 : ℚ), (0 : ℚ)), ((0 : ℚ), (1 : ℚ))]
     [("A", ((0 : ℚ), (0 : ℚ)))] (by decide) (by decide)⟩

/-- C9: on every successful locator call the summary is the single line
combining the winning station's name with the distance formatted to two
decimal places; and for the spec's end-to-end scenario (catalog ALPHA
then BETA, single input equal to ALPHA's coordinate, any distance
function that is zero on equal points and nonnegative on the BETA pair)
the summary names ALPHA MRT STATION at 0.00 km. -/
theorem C9_summary_line (d : Coord → Coord → ℚ)
    (h0 : d ((1.3 : ℚ), (103.8 : ℚ)) ((1.3 : ℚ), (103.8 : ℚ)) = 0)
    (h1 : 0 ≤ d ((1.3 : ℚ), (103.8 : ℚ)) ((1.31 : ℚ), (103.81 : ℚ))) :
    (∀ (locations : List Coord) (catalog : List (String × Coord)),
      locations ≠ [] → catalog ≠ [] →
      ∃ name : String, ∃ q : ℚ,
        (get_interactive_map_and_mrt_geojson d locations catalog).1 =
          "The nearest MRT station is: " ++ name ++ " (distance: " ++ format2 q ++ " km)")
    ∧ (get_interactive_map_and_mrt_geojson d [((1.3 : ℚ), (103.8 : ℚ))]
        [("ALPHA MRT STATION", ((1.3 : ℚ), (103.8 : ℚ))),
         ("BETA MRT STATION", ((1.31 : ℚ), (103.81 : ℚ)))]).1 =
      "The nearest MRT station is: ALPHA MRT STATION (distance: 0.00 km)" := by
  constructor
  · intro locations catalog hl hc
    obtain ⟨a, as, rfl⟩ := List.exists_cons_of_ne_nil hl
    obtain ⟨b, bs, rfl⟩ := List.exists_cons_of_ne_nil hc
    obtain ⟨i, hi, heq, -, -⟩ :=
      scanLoop_top (d (center_point (a :: as))) (b :: bs) (by simp)
    refine ⟨((b :: bs).get ⟨i, hi⟩).1, d (center_point (a :: as)) ((b :: bs).get ⟨i, hi⟩).2, ?_⟩
    rw [get_map_fst, heq]; rfl
  · have hc : center_point [((1.3 : ℚ), (103.8 : ℚ))] = ((1.3 : ℚ), (103.8 : ℚ)) := by
      simp [center_point]
    rw [get_map_fst, hc]
    have s1 : scanStep (d ((1.3 : ℚ), (103.8 : ℚ)))
        ⟨"Unknown", ⊤, none⟩ ("ALPHA MRT STATION", ((1.3 : ℚ), (103.8 : ℚ))) =
        ⟨"ALPHA MRT STATION", ((0 : ℚ) : WithTop ℚ), some ((1.3 : ℚ), (103.8 : ℚ))⟩ := by
      simp [scanStep, h0]
    have s2 : scanStep (d ((1.3 : ℚ), (103.8 : ℚ)))
        ⟨"ALPHA MRT STATION", ((0 : ℚ) : WithTop ℚ), some ((1.3 : ℚ), (103.8 : ℚ))⟩
        ("BETA MRT STATION", ((1.31 : ℚ), (103.81 : ℚ))) =
        ⟨"ALPHA MRT STATION", ((0 : ℚ) : WithTop ℚ), some ((1.3 : ℚ), (103.8 : ℚ))⟩ := by
      have hn : ¬ ((d ((1.3 : ℚ), (103.8 : ℚ)) ((1.31 : ℚ), (103.81 : ℚ)) : WithTop ℚ) <
          ((0 : ℚ) : WithTop ℚ)) := by
        rw [not_lt]
        exact WithTop.coe_le_coe.mpr h1
      simp only [scanStep, if_neg hn]
    rw [scanLoop_cons, s1, scanLoop_cons, s2, scanLoop_nil]
    rw [show formatF2 (((0 : ℚ) : WithTop ℚ)) = format2 0 from rfl, format2_zero]
    rfl

/-- C9 witness: the scenario instantiated with the squared-euclidean
distance function, which is zero on equal points and nonnegative. -/
theorem C9_summary_line_witness :
    ((fun (p q : Coord) => (p.1 - q.1) ^ 2 + (p.2 - q.2) ^ 2)
        ((1.3 : ℚ), (103.8 : ℚ)) ((1.3 : ℚ), (103.8 : ℚ)) = 0 ∧
     0 ≤ (fun (p q : Coord) => (p.1 - q.1) ^ 2 + (p.2 - q.2) ^ 2)
        ((1.3 : ℚ), (103.8 : ℚ)) ((1.31 : ℚ), (103.81 : ℚ))) ∧
    (get_interactive_map_and_mrt_geojson
        (fun (p q : Coord) => (p.1 - q.1) ^ 2 + (p.2 - q.2) ^ 2)
        [((1.3 : ℚ), (103.8 : ℚ))]
        [("ALPHA MRT STATION", ((1.3 : ℚ), (103.8 : ℚ))),
         ("BETA MRT STATION", ((1.31 : ℚ), (103.81 : ℚ)))]).1 =
      "The nearest MRT station is: ALPHA MRT STATION (distance: 0.00 km)" :=
  ⟨⟨by norm_num, by positivity⟩,
   (C9_summary_line (fun (p q : Coord) => (p.1 - q.1) ^ 2 + (p.2 - q.2) ^ 2)
     (by norm_num) (by positivity)).2⟩

/-- Inversion for an accepted feature: the acceptance test on the name
passed, and the record's coordinates came from indices 1 (latitude) and
0 (longitude) of the feature's `coordinates` value. -/
theorem processFeature_ok_some (f : JValue) (st : MRTStation)
    (h : processFeature f = .ok (some st)) :
    substrB "MRT STATION" st.1 = true
    ∧ ∃ geometry coordinates : JValue,
        pyGetD f "geometry" (.obj []) = .ok geometry
        ∧ pyGet geometry "coordinates" = .ok coordinates
        ∧ jIndex coordinates 0 = .ok st.2.2
        ∧ jIndex coordinates 1 = .ok st.2.1 := by
  unfold processFeature at h
  repeat' split at h
  all_goals cases h
  exact ⟨by assumption, _, _, by assumption, by assumption, by assumption, by assumption⟩

theorem foldl_accept (fs : List JValue) (acc : List MRTStation) :
    fs.foldl (fun acc f =>
      match acceptFeature f with
      | some st => acc ++ [st]
      | none => acc) acc
    = acc ++ fs.filterMap acceptFeature := by
  induction fs generalizing acc with
  | nil => simp
  | cons f fs ih =>
    cases hf : acceptFeature f <;>
      simp [List.foldl_cons, hf, ih, List.filterMap_cons]

theorem load_parsed_obj (kvs : List (String × JValue)) :
    load_mrt_data_from_geojson (.parsed (.obj kvs)) =
      match jIter ((jLookup kvs "features").getD (.arr [])) with
      | .error e => .error e
      | .ok feats =>
        .ok (feats.foldl (fun acc f =>
          match acceptFeature f with
          | some st => acc ++ [st]
          | none => acc) []) := rfl

/-- C6: for a well-formed feature collection (a JSON object whose
`features` entry is a list), the extractor returns exactly the accepted
features' records in source order — hence no sorting and no
deduplication — its output length is at most the number of features, and
every returned name contains the substring "MRT STATION". -/
theorem C6_extractor_output (kvs : List (String × JValue)) (fs : List JValue)
    (h : jLookup kvs "features" = some (.arr fs)) :
    load_mrt_data_from_geojson (.parsed (.obj kvs)) = .ok (fs.filterMap acceptFeature)
    ∧ (fs.filterMap acceptFeature).length ≤ fs.length
    ∧ ∀ st ∈ fs.filterMap acceptFeature, substrB "MRT STATION" st.1 = true := by
  refine ⟨?_, List.length_filterMap_le _ _, ?_⟩
  · rw [load_parsed_obj, h]
    simp only [Option.getD_some, jIter]
    rw [foldl_accept]
    simp
  · intro st hst
    obtain ⟨f, hf, hacc⟩ := List.mem_filterMap.mp hst
    have hp : processFeature f = .ok (some st) := by
      unfold acceptFeature at hacc
      rcases hq : processFeature f with e | o
      · rw [hq] at hacc; cases hacc
      · rcases o with _ | st2
        · rw [hq] at hacc; cases hacc
        · rw [hq] at hacc; cases hacc; rfl
    exact (processFeature_ok_some f st hp).1

/-- C6 witness: a two-feature collection in which only the first feature
is accepted. -/
theorem C6_extractor_output_witness :
    jLookup [("features", JValue.arr [wfFeature, JValue.null])] "features" =
      some (.arr [wfFeature, JValue.null]) ∧
    (load_mrt_data_from_geojson (.parsed (.obj [("features", JValue.arr [wfFeature, JValue.null])])) =
      .ok (([wfFeature, JValue.null].filterMap acceptFeature))
     ∧ ([wfFeature, JValue.null].filterMap acceptFeature).length ≤ [wfFeature, JValue.null].length
     ∧ ∀ st ∈ [wfFeature, JValue.null].filterMap acceptFeature,
         substrB "MRT STATION" st.1 = true) :=
  ⟨rfl, C6_extractor_output [("features", JValue.arr [wfFeature, JValue.null])]
    [wfFeature, JValue.null] rfl⟩

/-- C5: every feature the extractor accepts had its two-element source
coordinate pair interpreted longitude-first and swapped: the record's
latitude (first component) is the source pair's index 1 and its
longitude (second component) is the source pair's index 0. -/
theorem C5_coordinate_swap (f : JValue) (st : MRTStation)
    (h : processFeature f = .ok (some st)) :
    ∃ geometry coordinates : JValue,
      pyGetD f "geometry" (.obj []) = .ok geometry
      ∧ pyGet geometry "coordinates" = .ok coordinates
      ∧ jIndex coordinates 0 = .ok st.2.2
      ∧ jIndex coordinates 1 = .ok st.2.1 :=
  (processFeature_ok_some f st h).2

/-- C5 witness: the feature with source coordinates `[103.8, 1.3]` is
accepted and yields the latitude-first record coordinate
`(1.3, 103.8)`. -/
theorem C5_coordinate_swap_witness :
    processFeature wfFeature =
      .ok (some ("X MRT STATION", (.num (1.3 : ℚ), .num (103.8 : ℚ))))
    ∧ ∃ geometry coordinates : JValue,
        pyGetD wfFeature "geometry" (.obj []) = .ok geometry
        ∧ pyGet geometry "coordinates" = .ok coordinates
        ∧ jIndex coordinates 0 = .ok (JValue.num (103.8 : ℚ))
        ∧ jIndex coordinates 1 = .ok (JValue.num (1.3 : ℚ)) :=
  ⟨rfl, C5_coordinate_swap wfFeature
    ("X MRT STATION", (.num (1.3 : ℚ), .num (103.8 : ℚ))) rfl⟩

/-- C4 (amended): the extractor never raises an unhandled fault provided
the document is missing, fails to decode, or decodes to a JSON object
whose `features` entry (when present) is iterable; a missing or
undecodable document yields the empty result, and per-feature failures
are skipped inside the loop. (As the counterexample shows, a document
that decodes to a non-object — e.g. a JSON list — makes `data.get`
raise an uncaught `AttributeError`, so the unamended claim is false.) -/
theorem C4_no_unhandled_fault (input : LoadInput) (h : topLevelOk input = true) :
    (∃ l, load_mrt_data_from_geojson input = .ok l)
    ∧ load_mrt_data_from_geojson .missing = .ok []
    ∧ load_mrt_data_from_geojson .badJson = .ok [] := by
  refine ⟨?_, rfl, rfl⟩
  cases input with
  | missing => exact ⟨[], rfl⟩
  | badJson => exact ⟨[], rfl⟩
  | parsed data =>
    cases data with
    | null => exact absurd h (by simp [topLevelOk])
    | bool b => exact absurd h (by simp [topLevelOk])
    | num q => exact absurd h (by simp [topLevelOk])
    | str s => exact absurd h (by simp [topLevelOk])
    | arr xs => exact absurd h (by simp [topLevelOk])
    | obj kvs =>
      rw [load_parsed_obj]
      rcases hv : (jLookup kvs "features").getD (.arr []) with _ | b | q | s | xs | kvs2
      · exact absurd h (by simp [topLevelOk, hv])
      · exact absurd h (by simp [topLevelOk, hv])
      · exact absurd h (by simp [topLevelOk, hv])
      · exact ⟨_, rfl⟩
      · exact ⟨_, rfl⟩
      · exact ⟨_, rfl⟩

/-- C4 witness: the guarantee evaluated on a decodable document that is
a well-formed (empty) feature collection. -/
theorem C4_no_unhandled_fault_witness :
    topLevelOk (.parsed (.obj [("features", JValue.arr [])])) = true ∧
    ((∃ l, load_mrt_data_from_geojson (.parsed (.obj [("features", JValue.arr [])])) = .ok l)
     ∧ load_mrt_data_from_geojson .missing = .ok []
     ∧ load_mrt_data_from_geojson .badJson = .ok []) :=
  ⟨rfl, C4_no_unhandled_fault (.parsed (.obj [("features", JValue.arr [])])) rfl⟩

/-- C4 counterexample: the contents `[]` decode to a JSON list — a
well-formed JSON document that is a malformed top-level structure for
this extractor — and `data.get('features', [])` raises an uncaught
`AttributeError` instead of returning an empty result, contradicting
the claim that no input ever produces an unhandled fault. -/
theorem C4_counterexample :
    load_mrt_data_from_geojson (.parsed (.arr [])) = .error .attributeError := rfl
